import Mathlib

/-!
Verification of the snow-ai-triage service (src/app.py) against its
natural-language specification.

The program is a single-endpoint FastAPI service.  Every operation is a
sequential call to an external HTTP API, so the embedding models each remote
round trip as an oracle value: a `Response` for the ticketing-store calls and
an `Except` outcome for the language-model call.  An `Env` packages the
oracles consumed by one request.  The orchestrator returns, next to its
result, the chronological list of remote calls it performed, so that
claims about "no mutation before the final update" are statable.

Python-level behaviour that matters to the claims is embedded explicitly:
dictionary access, list indexing and truthiness follow Python semantics and
surface Python exceptions (`KeyError`, `IndexError`, `TypeError`,
`AttributeError`, JSON decode failure) as values of `PyExc`.
-/

/-- JSON-like value as manipulated by the Python code after a response is
parsed with r.json().  Objects keep field order, as Python dicts do. -/
inductive JVal where
  | null
  | bool (b : Bool)
  | num (n : Int)
  | str (s : String)
  | arr (elems : List JVal)
  | obj (fields : List (String × JVal))

/-- Exceptions the Python code can raise.  `httpException` embeds
fastapi.HTTPException (status_code, detail); `apiStatusError` embeds the
error raised by the OpenAI client for a failing backend call (it carries the
upstream status and body); the remaining constructors embed the standard
Python exceptions that unguarded data access can raise. -/
inductive PyExc where
  | httpException (status_code : Nat) (detail : String)
  | apiStatusError (status_code : Nat) (body : String)
  | jsonDecodeError
  | keyError (key : String)
  | indexError
  | typeError
  | attributeError

/-- One HTTP response from the ticketing store, as the requests library
hands it to the code: a numeric status, the raw text, and the result of
attempting to parse the body as JSON (`none` when the body is not JSON,
in which case r.json() raises). -/
structure Response where
  status_code : Nat
  text : String
  body : Option JVal

/-- Embeds r.json(): returns the parsed body or raises a JSON decode
error. -/
def Response.json (r : Response) : Except PyExc JVal :=
  match r.body with
  | some v => Except.ok v
  | none => Except.error PyExc.jsonDecodeError

/-- Python truthiness of a JSON value: empty string, empty list, empty dict,
zero and None are falsy, everything else is truthy (used by
`if not result:` and by the `if group_sys_id:` payload guards). -/
def pyTruthy : JVal → Bool
  | JVal.null => false
  | JVal.bool b => b
  | JVal.num n => n != 0
  | JVal.str s => s != ""
  | JVal.arr elems => !elems.isEmpty
  | JVal.obj fields => !fields.isEmpty

/-- Embeds data.get(key, default) on the value returned by r.json():
defaulting lookup when the value is a dict, AttributeError otherwise. -/
def pyDictGetD (v : JVal) (key : String) (dflt : JVal) : Except PyExc JVal :=
  match v with
  | JVal.obj fields =>
    match fields.lookup key with
    | some w => Except.ok w
    | none => Except.ok dflt
  | _ => Except.error PyExc.attributeError

/-- Embeds v[key] for a string key: dict lookup raising KeyError when the
key is absent, TypeError when the value is not a dict. -/
def pySubscript (v : JVal) (key : String) : Except PyExc JVal :=
  match v with
  | JVal.obj fields =>
    match fields.lookup key with
    | some w => Except.ok w
    | none => Except.error (PyExc.keyError key)
  | _ => Except.error PyExc.typeError

/-- Embeds v[i] for a numeric index: list indexing (IndexError when out of
range), string indexing (yielding a one-character string), TypeError on
other values. -/
def pyIndex (v : JVal) (i : Nat) : Except PyExc JVal :=
  match v with
  | JVal.arr elems =>
    match elems[i]? with
    | some w => Except.ok w
    | none => Except.error PyExc.indexError
  | JVal.str s =>
    match s.data[i]? with
    | some c => Except.ok (JVal.str (String.mk [c]))
    | none => Except.error PyExc.indexError
  | _ => Except.error PyExc.typeError

/-- Embeds Python str.lower(), character by character. -/
def str_lower (s : String) : String :=
  String.mk (s.data.map Char.toLower)

/-- Embeds Python str.strip(): drop whitespace from both ends. -/
def str_strip (s : String) : String :=
  String.mk (((s.data.dropWhile Char.isWhitespace).reverse.dropWhile
    Char.isWhitespace).reverse)

/-- Base URL of the ticketing store.  In the source this is
os.getenv with the fixed default below; it is process-static and never
influences control flow, so it is embedded as the default literal. -/
def INSTANCE : String := "https://dev195416.service-now.com"

/-- Embeds get_sys_id_from_number (src/app.py lines 39-62).  The HTTP GET
against the incident table is the oracle argument `r`; the function body
checks the status, parses the body, reads the result list and returns the
sys_id field of the first record. -/
def get_sys_id_from_number (r : Response) (inc_number : String) :
    Except PyExc JVal :=
  if 400 ≤ r.status_code then
    Except.error (PyExc.httpException r.status_code r.text)
  else
    match r.json with
    | Except.error e => Except.error e
    | Except.ok data =>
      match pyDictGetD data "result" (JVal.arr []) with
      | Except.error e => Except.error e
      | Except.ok result =>
        if pyTruthy result = false then
          Except.error (PyExc.httpException 404
            ("Incident " ++ inc_number ++ " not found in ServiceNow."))
        else
          match pyIndex result 0 with
          | Except.error e => Except.error e
          | Except.ok first => pySubscript first "sys_id"

/-- Embeds get_user_sys_id (src/app.py lines 68-91), structurally identical
to the incident resolver but querying the user table. -/
def get_user_sys_id (r : Response) (username : String) :
    Except PyExc JVal :=
  if 400 ≤ r.status_code then
    Except.error (PyExc.httpException r.status_code r.text)
  else
    match r.json with
    | Except.error e => Except.error e
    | Except.ok data =>
      match pyDictGetD data "result" (JVal.arr []) with
      | Except.error e => Except.error e
      | Except.ok result =>
        if pyTruthy result = false then
          Except.error (PyExc.httpException 404
            ("User " ++ username ++ " not found in ServiceNow."))
        else
          match pyIndex result 0 with
          | Except.error e => Except.error e
          | Except.ok first => pySubscript first "sys_id"

/-- Embeds get_group_sys_id (src/app.py lines 97-120), structurally
identical to the incident resolver but querying the group table. -/
def get_group_sys_id (r : Response) (group_name : String) :
    Except PyExc JVal :=
  if 400 ≤ r.status_code then
    Except.error (PyExc.httpException r.status_code r.text)
  else
    match r.json with
    | Except.error e => Except.error e
    | Except.ok data =>
      match pyDictGetD data "result" (JVal.arr []) with
      | Except.error e => Except.error e
      | Except.ok result =>
        if pyTruthy result = false then
          Except.error (PyExc.httpException 404
            ("Group " ++ group_name ++ " not found in ServiceNow."))
        else
          match pyIndex result 0 with
          | Except.error e => Except.error e
          | Except.ok first => pySubscript first "sys_id"

/-- Routing decision returned by decide_routing: the Python dict with keys
group_name and assignee_username. -/
structure RoutingDecision where
  group_name : String
  assignee_username : String

/-- Embeds decide_routing (src/app.py lines 126-140): lowercase the
space-joined concatenation of the two text fields and test it for the two
keyword substrings. -/
def decide_routing (short_desc : String) (desc : String) : RoutingDecision :=
  let text := str_lower (short_desc ++ " " ++ desc)
  if "endorsement".data <:+: text.data ∨ "roadside".data <:+: text.data then
    ⟨"Policy_Admin_Triage", "winston.dsouza"⟩
  else
    ⟨"Policy_Admin_Triage", ""⟩

/-- One remote call performed while handling a request.  The GET events
carry the query argument, the PATCH event carries the target url and the
JSON payload that is sent; only the PATCH mutates the remote store. -/
inductive CallEvent where
  | getIncident (number : String)
  | llmCall
  | getGroup (group_name : String)
  | getUser (username : String)
  | patchIncident (url : String) (payload : List (String × JVal))

/-- Discriminator for the one mutating kind of call event. -/
def isPatch : CallEvent → Bool
  | CallEvent.patchIncident _ _ => true
  | _ => false

/-- Embeds sys_id.lower().strip() as applied to whatever value the resolver
produced: succeeds on strings, raises AttributeError otherwise. -/
def py_lower_strip : JVal → Except PyExc String
  | JVal.str s => Except.ok (str_strip (str_lower s))
  | _ => Except.error PyExc.attributeError

/-- Payload dict built by update_incident (src/app.py lines 151-159), in
Python dict insertion order: work_notes and state always, assignment_group
and assigned_to only when the corresponding identifier is truthy. -/
def update_payload (work_notes : String) (group_sys_id : JVal)
    (user_sys_id : JVal) : List (String × JVal) :=
  [("work_notes", JVal.str work_notes), ("state", JVal.str "2")]
    ++ (if pyTruthy group_sys_id then [("assignment_group", group_sys_id)]
        else [])
    ++ (if pyTruthy user_sys_id then [("assigned_to", user_sys_id)] else [])

/-- Embeds update_incident (src/app.py lines 146-174).  The PATCH round
trip is the oracle `r`; the returned list records the PATCH actually issued
(empty when sys_id.lower() raised before the request was sent).  A 404
answer is reported as a not-found for the normalized identifier, any other
status of at least 400 is passed through with the remote body, otherwise
the parsed response body is returned. -/
def update_incident (r : Response) (sys_id : JVal) (work_notes : String)
    (group_sys_id : JVal) (user_sys_id : JVal) :
    Except PyExc JVal × List CallEvent :=
  match py_lower_strip sys_id with
  | Except.error e => (Except.error e, [])
  | Except.ok sid =>
    let url := INSTANCE ++ "/api/now/table/incident/" ++ sid
    let payload := update_payload work_notes group_sys_id user_sys_id
    let calls := [CallEvent.patchIncident url payload]
    if r.status_code = 404 then
      (Except.error (PyExc.httpException 404
        ("Incident sys_id=" ++ sid ++ " not found in ServiceNow.")), calls)
    else if 400 ≤ r.status_code then
      (Except.error (PyExc.httpException r.status_code r.text), calls)
    else
      (r.json, calls)

/-- Embeds triage_report (src/app.py lines 180-220).  The completion call
is the oracle `llm`: on success it yields the message content, on failure
the OpenAI client exception, which the function body does not catch; the
body only strips the content before returning it. -/
def triage_report (llm : Except PyExc String) (inc_number : String)
    (short_desc : String) (desc : String) : Except PyExc String :=
  match llm with
  | Except.error e => Except.error e
  | Except.ok content => Except.ok (str_strip content)

/-- Request body of the endpoint (the pydantic model IncidentPayload). -/
structure IncidentPayload where
  number : String
  short_description : String
  description : String

/-- Success body returned by the endpoint (the dict literal at src/app.py
lines 263-270). -/
structure TriageResult where
  status : String
  incident : String
  sys_id : JVal
  assignment_group : String
  assigned_to : String
  notes : String

/-- Oracles consumed while handling one request: the configured password
and the outcome of each remote round trip the handler can perform. -/
structure Env where
  sn_password : String
  incidentResp : Response
  llmResult : Except PyExc String
  groupResp : Response
  userResp : Response
  updateResp : Response

/-- Auto-routing block appended to the notes (src/app.py line 258). -/
def autoRoutingNote (routing : RoutingDecision) : String :=
  "\n\n✅ Auto-routing:\n- Assignment group: " ++ routing.group_name ++
    "\n- Assigned to: " ++ routing.assignee_username

/-- Boolean success discriminator for an Except outcome. -/
def exceptOk {ε α : Type} : Except ε α → Bool
  | Except.ok _ => true
  | Except.error _ => false

/-- Embeds the endpoint triage_incident (src/app.py lines 227-270): check
the password, resolve the incident number, generate the report, compute the
routing, resolve group and user when named, append the auto-routing block
when an assignee is named, apply the update and assemble the response.
Returns the outcome together with the chronological list of remote calls
performed. -/
def triage_incident (env : Env) (payload : IncidentPayload) :
    Except PyExc TriageResult × List CallEvent :=
  if env.sn_password = "" then
    (Except.error (PyExc.httpException 500 "SN_PASSWORD env var is missing."),
      [])
  else
    let t1 := [CallEvent.getIncident payload.number]
    match get_sys_id_from_number env.incidentResp payload.number with
    | Except.error e => (Except.error e, t1)
    | Except.ok inc_sys_id =>
      let t2 := t1 ++ [CallEvent.llmCall]
      match triage_report env.llmResult payload.number
          payload.short_description payload.description with
      | Except.error e => (Except.error e, t2)
      | Except.ok notes0 =>
        let routing := decide_routing payload.short_description
          payload.description
        let groupStep : Except PyExc JVal × List CallEvent :=
          if routing.group_name ≠ "" then
            (get_group_sys_id env.groupResp routing.group_name,
              [CallEvent.getGroup routing.group_name])
          else
            (Except.ok (JVal.str ""), [])
        let t3 := t2 ++ groupStep.2
        match groupStep.1 with
        | Except.error e => (Except.error e, t3)
        | Except.ok group_sys_id =>
          let userStep : Except PyExc JVal × List CallEvent :=
            if routing.assignee_username ≠ "" then
              (get_user_sys_id env.userResp routing.assignee_username,
                [CallEvent.getUser routing.assignee_username])
            else
              (Except.ok (JVal.str ""), [])
          let t4 := t3 ++ userStep.2
          match userStep.1 with
          | Except.error e => (Except.error e, t4)
          | Except.ok user_sys_id =>
            let notes :=
              if routing.assignee_username ≠ "" then
                notes0 ++ autoRoutingNote routing
              else
                notes0
            let upd := update_incident env.updateResp inc_sys_id notes
              group_sys_id user_sys_id
            let t5 := t4 ++ upd.2
            match upd.1 with
            | Except.error e => (Except.error e, t5)
            | Except.ok _ =>
              (Except.ok ⟨"updated", payload.number, inc_sys_id,
                routing.group_name, routing.assignee_username, notes⟩, t5)

/-! ### Occurrence lemmas relating the joined text to the two fields -/

lemma occ_extend_right {α : Type} {n s : List α} (h : n <:+: s) (d : List α) :
    n <:+: s ++ d := by
  obtain ⟨p, q, hpq⟩ := h
  exact ⟨p, q ++ d, by rw [← hpq]; simp⟩

lemma occ_extend_left {α : Type} {n d : List α} (h : n <:+: d) (s : List α) :
    n <:+: s ++ d := by
  obtain ⟨p, q, hpq⟩ := h
  exact ⟨s ++ p, q, by rw [← hpq]; simp⟩

lemma pref_drop_tail {α : Type} {n s d : List α} {a : α} (ha : a ∉ n)
    (h : n <+: s ++ a :: d) : n <+: s := by
  induction n generalizing s with
  | nil => exact ⟨s, rfl⟩
  | cons x n ih =>
    cases s with
    | nil =>
      obtain ⟨t, ht⟩ := h
      simp at ht
      obtain ⟨hxa, -⟩ := ht
      subst hxa
      exact absurd (List.mem_cons_self x n) ha
    | cons y s =>
      obtain ⟨t, ht⟩ := h
      simp at ht
      obtain ⟨hxy, ht2⟩ := ht
      subst hxy
      have hn : n <+: s :=
        ih (fun hm => ha (List.mem_cons_of_mem x hm)) ⟨t, ht2⟩
      obtain ⟨u, hu⟩ := hn
      exact ⟨u, by simp [hu]⟩

lemma occ_split {α : Type} {n d : List α} {a : α} (ha : a ∉ n) :
    ∀ s : List α, n <:+: s ++ a :: d → n <:+: s ∨ n <:+: d := by
  intro s
  induction s with
  | nil =>
    intro h
    obtain ⟨p, q, hpq⟩ := h
    cases p with
    | nil =>
      cases n with
      | nil => exact Or.inl ⟨[], [], rfl⟩
      | cons x n' =>
        simp at hpq
        obtain ⟨hxa, -⟩ := hpq
        subst hxa
        exact absurd (List.mem_cons_self x n') ha
    | cons c p' =>
      simp at hpq
      obtain ⟨-, h2⟩ := hpq
      exact Or.inr ⟨p', q, by simpa using h2⟩
  | cons c s ih =>
    intro h
    obtain ⟨p, q, hpq⟩ := h
    cases p with
    | nil =>
      have hp : n <+: (c :: s) ++ a :: d := ⟨q, by simpa using hpq⟩
      obtain ⟨t, ht⟩ := pref_drop_tail ha hp
      exact Or.inl ⟨[], t, by simpa using ht⟩
    | cons x p' =>
      simp at hpq
      obtain ⟨hxc, h2⟩ := hpq
      have hsub : n <:+: s ++ a :: d := ⟨p', q, by simpa using h2⟩
      rcases ih hsub with h1 | h1
      · obtain ⟨p2, q2, hpq2⟩ := h1
        exact Or.inl ⟨c :: p2, q2, by simp [← hpq2]⟩
      · exact Or.inr h1

lemma occ_append_cons_iff {α : Type} {n s d : List α} {a : α} (ha : a ∉ n) :
    n <:+: s ++ a :: d ↔ n <:+: s ∨ n <:+: d := by
  constructor
  · exact occ_split ha s
  · rintro (h | h)
    · exact occ_extend_right h (a :: d)
    · have h2 := occ_extend_left h (s ++ [a])
      simpa using h2

lemma toLower_space : Char.toLower ' ' = ' ' := by decide

lemma space_data : (" " : String).data = [' '] := rfl

lemma routing_text_data (s d : String) :
    (str_lower (s ++ " " ++ d)).data =
      (str_lower s).data ++ ' ' :: (str_lower d).data := by
  simp [str_lower, String.data_append, space_data, toLower_space]

lemma occ_joined_iff {n : List Char} (hn : ' ' ∉ n) (s d : String) :
    n <:+: (str_lower (s ++ " " ++ d)).data ↔
      n <:+: (str_lower s).data ∨ n <:+: (str_lower d).data := by
  rw [routing_text_data]
  exact occ_append_cons_iff hn

lemma decide_routing_group (s d : String) :
    (decide_routing s d).group_name = "Policy_Admin_Triage" := by
  simp only [decide_routing]
  split <;> rfl

lemma decide_routing_group_ne (s d : String) :
    (decide_routing s d).group_name ≠ "" := by
  rw [decide_routing_group]
  decide

lemma decide_routing_assignee_cases (s d : String) :
    (decide_routing s d).assignee_username = "winston.dsouza" ∨
      (decide_routing s d).assignee_username = "" := by
  simp only [decide_routing]
  split
  · exact Or.inl rfl
  · exact Or.inr rfl

/-- C1: decide_routing always yields group Policy_Admin_Triage, and yields
assignee winston.dsouza exactly when the substring "endorsement" or
"roadside" occurs case-insensitively in either input field, with the empty
assignee for all other inputs. -/
theorem routing_decision_spec (s d : String) :
    (decide_routing s d).group_name = "Policy_Admin_Triage" ∧
    (decide_routing s d).assignee_username =
      (if "endorsement".data <:+: (str_lower s).data
          ∨ "endorsement".data <:+: (str_lower d).data
          ∨ "roadside".data <:+: (str_lower s).data
          ∨ "roadside".data <:+: (str_lower d).data
        then "winston.dsouza" else "") := by
  have he : ' ' ∉ "endorsement".data := by decide
  have hr : ' ' ∉ "roadside".data := by decide
  have key : ("endorsement".data <:+: (str_lower (s ++ " " ++ d)).data
      ∨ "roadside".data <:+: (str_lower (s ++ " " ++ d)).data) ↔
      ("endorsement".data <:+: (str_lower s).data
        ∨ "endorsement".data <:+: (str_lower d).data
        ∨ "roadside".data <:+: (str_lower s).data
        ∨ "roadside".data <:+: (str_lower d).data) := by
    rw [occ_joined_iff he s d, occ_joined_iff hr s d]
    tauto
  refine ⟨decide_routing_group s d, ?_⟩
  simp only [decide_routing]
  split
  · rename_i hc
    rw [if_pos (key.mp hc)]
  · rename_i hc
    rw [if_neg (fun h4 => hc (key.mpr h4))]

lemma assignee_eq_of_ne (s d : String)
    (h : (decide_routing s d).assignee_username ≠ "") :
    (decide_routing s d).assignee_username = "winston.dsouza" :=
  (decide_routing_assignee_cases s d).resolve_right h

/-! ### Shape of the orchestrator outcome at each abort point -/

lemma triage_step0 (env : Env) (p : IncidentPayload)
    (hpw : env.sn_password = "") :
    triage_incident env p =
      (Except.error (PyExc.httpException 500 "SN_PASSWORD env var is missing."),
        []) := by
  simp [triage_incident, hpw]

lemma triage_step1 (env : Env) (p : IncidentPayload) (e : PyExc)
    (hpw : env.sn_password ≠ "")
    (hInc : get_sys_id_from_number env.incidentResp p.number =
      Except.error e) :
    triage_incident env p = (Except.error e, [CallEvent.getIncident p.number]) := by
  simp [triage_incident, hpw, hInc]

lemma triage_step2 (env : Env) (p : IncidentPayload) (v : JVal) (e : PyExc)
    (hpw : env.sn_password ≠ "")
    (hInc : get_sys_id_from_number env.incidentResp p.number = Except.ok v)
    (hLlm : env.llmResult = Except.error e) :
    triage_incident env p =
      (Except.error e, [CallEvent.getIncident p.number, CallEvent.llmCall]) := by
  simp [triage_incident, triage_report, hpw, hInc, hLlm]

lemma triage_step3 (env : Env) (p : IncidentPayload) (v : JVal)
    (content : String) (e : PyExc)
    (hpw : env.sn_password ≠ "")
    (hInc : get_sys_id_from_number env.incidentResp p.number = Except.ok v)
    (hLlm : env.llmResult = Except.ok content)
    (hGrp : get_group_sys_id env.groupResp "Policy_Admin_Triage" =
      Except.error e) :
    triage_incident env p =
      (Except.error e,
        [CallEvent.getIncident p.number, CallEvent.llmCall,
          CallEvent.getGroup "Policy_Admin_Triage"]) := by
  simp [triage_incident, triage_report, hpw, hInc, hLlm,
    decide_routing_group, hGrp]

lemma triage_step4 (env : Env) (p : IncidentPayload) (v : JVal)
    (content : String) (g : JVal) (e : PyExc)
    (hpw : env.sn_password ≠ "")
    (hInc : get_sys_id_from_number env.incidentResp p.number = Except.ok v)
    (hLlm : env.llmResult = Except.ok content)
    (hGrp : get_group_sys_id env.groupResp "Policy_Admin_Triage" =
      Except.ok g)
    (hA : (decide_routing p.short_description p.description).assignee_username
      ≠ "")
    (hUsr : get_user_sys_id env.userResp
      (decide_routing p.short_description p.description).assignee_username =
      Except.error e) :
    triage_incident env p =
      (Except.error e,
        [CallEvent.getIncident p.number, CallEvent.llmCall,
          CallEvent.getGroup "Policy_Admin_Triage",
          CallEvent.getUser
            (decide_routing p.short_description p.description).assignee_username]) := by
  simp [triage_incident, triage_report, hpw, hInc, hLlm,
    decide_routing_group, hA, hUsr, hGrp]

lemma triage_final_assigned (env : Env) (p : IncidentPayload) (v : JVal)
    (content : String) (g : JVal) (u : JVal)
    (hpw : env.sn_password ≠ "")
    (hInc : get_sys_id_from_number env.incidentResp p.number = Except.ok v)
    (hLlm : env.llmResult = Except.ok content)
    (hGrp : get_group_sys_id env.groupResp "Policy_Admin_Triage" =
      Except.ok g)
    (hA : (decide_routing p.short_description p.description).assignee_username
      ≠ "")
    (hUsr : get_user_sys_id env.userResp
      (decide_routing p.short_description p.description).assignee_username =
      Except.ok u) :
    triage_incident env p =
      ((match (update_incident env.updateResp v
          (str_strip content ++ autoRoutingNote
            (decide_routing p.short_description p.description)) g u).1 with
        | Except.error e => Except.error e
        | Except.ok _ =>
          Except.ok ⟨"updated", p.number, v, "Policy_Admin_Triage",
            (decide_routing p.short_description p.description).assignee_username,
            str_strip content ++ autoRoutingNote
              (decide_routing p.short_description p.description)⟩),
        [CallEvent.getIncident p.number, CallEvent.llmCall,
          CallEvent.getGroup "Policy_Admin_Triage",
          CallEvent.getUser
            (decide_routing p.short_description p.description).assignee_username]
          ++ (update_incident env.updateResp v
            (str_strip content ++ autoRoutingNote
              (decide_routing p.short_description p.description)) g u).2) := by
  simp [triage_incident, triage_report, hpw, hInc, hLlm,
    decide_routing_group, hA, hUsr, hGrp]
  rcases hu : (update_incident env.updateResp v
      (str_strip content ++ autoRoutingNote
        (decide_routing p.short_description p.description)) g u).1 with e | a <;>
    simp [hu]

lemma triage_final_unassigned (env : Env) (p : IncidentPayload) (v : JVal)
    (content : String) (g : JVal)
    (hpw : env.sn_password ≠ "")
    (hInc : get_sys_id_from_number env.incidentResp p.number = Except.ok v)
    (hLlm : env.llmResult = Except.ok content)
    (hGrp : get_group_sys_id env.groupResp "Policy_Admin_Triage" =
      Except.ok g)
    (hA : (decide_routing p.short_description p.description).assignee_username
      = "") :
    triage_incident env p =
      ((match (update_incident env.updateResp v (str_strip content) g
          (JVal.str "")).1 with
        | Except.error e => Except.error e
        | Except.ok _ =>
          Except.ok ⟨"updated", p.number, v, "Policy_Admin_Triage", "",
            str_strip content⟩),
        [CallEvent.getIncident p.number, CallEvent.llmCall,
          CallEvent.getGroup "Policy_Admin_Triage"]
          ++ (update_incident env.updateResp v (str_strip content) g
            (JVal.str "")).2) := by
  simp [triage_incident, triage_report, hpw, hInc, hLlm,
    decide_routing_group, hA, hGrp]
  rcases hu : (update_incident env.updateResp v (str_strip content) g
      (JVal.str "")).1 with e | a <;>
    simp [hu]

lemma update_calls_cases (r : Response) (sys_id : JVal) (wn : String)
    (g u : JVal) :
    (update_incident r sys_id wn g u).2 = [] ∨
    ∃ url, (update_incident r sys_id wn g u).2 =
      [CallEvent.patchIncident url (update_payload wn g u)] := by
  rcases hs : py_lower_strip sys_id with e | sid
  · left
    simp [update_incident, hs]
  · right
    refine ⟨INSTANCE ++ "/api/now/table/incident/" ++ sid, ?_⟩
    simp [update_incident, hs]
    split_ifs <;> simp

/-- C7: when the store password is absent or empty, the endpoint fails
immediately with the 500 configuration error and its call trace is empty:
no ticketing-store call and no language-model call is attempted. -/
theorem missing_password_fails_fast (env : Env) (p : IncidentPayload)
    (hpw : env.sn_password = "") :
    triage_incident env p =
      (Except.error (PyExc.httpException 500 "SN_PASSWORD env var is missing."),
        []) :=
  triage_step0 env p hpw

/-- Witness for missing_password_fails_fast at a concrete request. -/
theorem missing_password_fails_fast_witness :
    triage_incident ⟨"", ⟨200, "", none⟩, Except.ok "x", ⟨200, "", none⟩,
        ⟨200, "", none⟩, ⟨200, "", none⟩⟩ ⟨"INC0010001", "a", "b"⟩ =
      (Except.error (PyExc.httpException 500 "SN_PASSWORD env var is missing."),
        []) :=
  missing_password_fails_fast _ _ rfl

/-- C5: an error outcome of the language-model call propagates as exactly
the same exception value (hence carrying whatever upstream status and body
it holds, with no translation), and the request ends with no write to the
remote store: the trace holds only the two read steps already taken. -/
theorem llm_error_propagates (env : Env) (p : IncidentPayload) (e : PyExc)
    (hpw : env.sn_password ≠ "")
    (hInc : exceptOk (get_sys_id_from_number env.incidentResp p.number) = true)
    (hLlm : env.llmResult = Except.error e) :
    triage_incident env p =
      (Except.error e,
        [CallEvent.getIncident p.number, CallEvent.llmCall]) := by
  rcases hv : get_sys_id_from_number env.incidentResp p.number with e2 | v
  · rw [hv] at hInc
    simp [exceptOk] at hInc
  · exact triage_step2 env p v e hpw hv hLlm

/-- Witness for llm_error_propagates: a concrete 502 from the model backend
is returned verbatim and nothing is patched. -/
theorem llm_error_propagates_witness :
    triage_incident ⟨"pw",
        ⟨200, "", some (JVal.obj [("result",
          JVal.arr [JVal.obj [("sys_id", JVal.str "abc")]])])⟩,
        Except.error (PyExc.apiStatusError 502 "bad gateway"),
        ⟨200, "", none⟩, ⟨200, "", none⟩, ⟨200, "", none⟩⟩
      ⟨"INC0010001", "need endorsement change", ""⟩ =
      (Except.error (PyExc.apiStatusError 502 "bad gateway"),
        [CallEvent.getIncident "INC0010001", CallEvent.llmCall]) :=
  llm_error_propagates _ _ _ (by decide) rfl rfl

/-- C2: if any step before the update fails (incident resolution, summary
generation, group resolution, or user resolution when an assignee is
named), then no PATCH call is made; and in every execution at most one
PATCH call is made, so the single final update is the only mutation in the
request flow. -/
theorem no_mutation_before_update (env : Env) (p : IncidentPayload) :
    ((exceptOk (get_sys_id_from_number env.incidentResp p.number) = false
        ∨ exceptOk (triage_report env.llmResult p.number
            p.short_description p.description) = false
        ∨ exceptOk (get_group_sys_id env.groupResp
            (decide_routing p.short_description p.description).group_name)
            = false
        ∨ ((decide_routing p.short_description p.description).assignee_username
              ≠ "" ∧
            exceptOk (get_user_sys_id env.userResp
              (decide_routing p.short_description
                p.description).assignee_username) = false)) →
      List.filter isPatch (triage_incident env p).2 = []) ∧
    (List.filter isPatch (triage_incident env p).2).length ≤ 1 := by
  rw [decide_routing_group p.short_description p.description]
  by_cases hpw : env.sn_password = ""
  · rw [triage_step0 env p hpw]
    exact ⟨fun _ => rfl, by simp⟩
  · rcases hInc : get_sys_id_from_number env.incidentResp p.number with e | v
    · rw [triage_step1 env p e hpw hInc]
      exact ⟨fun _ => by simp [isPatch], by simp [isPatch]⟩
    · rcases hLlm : env.llmResult with e | content
      · rw [triage_step2 env p v e hpw hInc hLlm]
        exact ⟨fun _ => by simp [isPatch], by simp [isPatch]⟩
      · rcases hGrp : get_group_sys_id env.groupResp "Policy_Admin_Triage"
            with e | g
        · rw [triage_step3 env p v content e hpw hInc hLlm hGrp]
          exact ⟨fun _ => by simp [isPatch], by simp [isPatch]⟩
        · by_cases hA : (decide_routing p.short_description
              p.description).assignee_username = ""
          · rw [triage_final_unassigned env p v content g hpw hInc hLlm
              hGrp hA]
            constructor
            · intro hdisj
              exfalso
              rcases hdisj with h | h | h | h
              · simp [exceptOk] at h
              · simp [triage_report, exceptOk] at h
              · simp [exceptOk] at h
              · exact h.1 hA
            · rcases update_calls_cases env.updateResp v (str_strip content)
                  g (JVal.str "") with hc | ⟨url, hc⟩ <;>
                simp [hc, isPatch]
          · rcases hUsr : get_user_sys_id env.userResp
                (decide_routing p.short_description
                  p.description).assignee_username with e | u
            · rw [triage_step4 env p v content g e hpw hInc hLlm hGrp hA hUsr]
              exact ⟨fun _ => by simp [isPatch], by simp [isPatch]⟩
            · rw [triage_final_assigned env p v content g u hpw hInc hLlm
                hGrp hA hUsr]
              constructor
              · intro hdisj
                exfalso
                rcases hdisj with h | h | h | h
                · simp [exceptOk] at h
                · simp [triage_report, exceptOk] at h
                · simp [exceptOk] at h
                · rcases h with ⟨-, h2⟩
                  simp [exceptOk] at h2
              · rcases update_calls_cases env.updateResp v
                    (str_strip content ++ autoRoutingNote
                      (decide_routing p.short_description p.description))
                    g u with hc | ⟨url, hc⟩ <;>
                  simp [hc, isPatch]

/-- Witness for no_mutation_before_update: with a failing incident lookup
the trace holds no PATCH call. -/
theorem no_mutation_before_update_witness :
    List.filter isPatch (triage_incident ⟨"pw", ⟨500, "boom", none⟩,
        Except.ok "x", ⟨200, "", none⟩, ⟨200, "", none⟩, ⟨200, "", none⟩⟩
      ⟨"INC0010001", "", ""⟩).2 = [] :=
  (no_mutation_before_update _ _).1 (Or.inl rfl)

/-- C3: each Record Resolver helper, on a remote answer of status below 400
with the expected body shape, returns the sys_id of the first match when at
least one match is reported; with zero matches it fails with a 404 whose
detail names the human identifier and the entity kind; and on remote
status at least 400 it fails with that same status and the remote body
verbatim. -/
theorem resolver_spec (r : Response) (ident : String) (v : JVal)
    (extra : List (String × JVal)) (rest : List JVal) :
    (400 ≤ r.status_code →
      get_sys_id_from_number r ident =
        Except.error (PyExc.httpException r.status_code r.text) ∧
      get_user_sys_id r ident =
        Except.error (PyExc.httpException r.status_code r.text) ∧
      get_group_sys_id r ident =
        Except.error (PyExc.httpException r.status_code r.text)) ∧
    (r.status_code < 400 →
      r.body = some (JVal.obj [("result", JVal.arr [])]) →
      get_sys_id_from_number r ident =
        Except.error (PyExc.httpException 404
          ("Incident " ++ ident ++ " not found in ServiceNow.")) ∧
      get_user_sys_id r ident =
        Except.error (PyExc.httpException 404
          ("User " ++ ident ++ " not found in ServiceNow.")) ∧
      get_group_sys_id r ident =
        Except.error (PyExc.httpException 404
          ("Group " ++ ident ++ " not found in ServiceNow."))) ∧
    (r.status_code < 400 →
      r.body = some (JVal.obj [("result",
        JVal.arr (JVal.obj (("sys_id", v) :: extra) :: rest))]) →
      get_sys_id_from_number r ident = Except.ok v ∧
      get_user_sys_id r ident = Except.ok v ∧
      get_group_sys_id r ident = Except.ok v) := by
  refine ⟨fun h4 => ?_, fun hlt hb => ?_, fun hlt hb => ?_⟩
  · simp [get_sys_id_from_number, get_user_sys_id, get_group_sys_id, h4]
  · have hn4 : ¬ 400 ≤ r.status_code := Nat.not_le.mpr hlt
    simp [get_sys_id_from_number, get_user_sys_id, get_group_sys_id, hn4,
      Response.json, hb, pyDictGetD, pyTruthy, List.lookup]
  · have hn4 : ¬ 400 ≤ r.status_code := Nat.not_le.mpr hlt
    simp [get_sys_id_from_number, get_user_sys_id, get_group_sys_id, hn4,
      Response.json, hb, pyDictGetD, pyTruthy, pyIndex, pySubscript,
      List.lookup]

/-- Witness for resolver_spec: one concrete response per branch, across the
three helpers. -/
theorem resolver_spec_witness :
    get_sys_id_from_number ⟨403, "forbidden", none⟩ "INC0010001" =
      Except.error (PyExc.httpException 403 "forbidden") ∧
    get_user_sys_id ⟨200, "", some (JVal.obj [("result", JVal.arr [])])⟩
        "winston.dsouza" =
      Except.error (PyExc.httpException 404
        "User winston.dsouza not found in ServiceNow.") ∧
    get_group_sys_id ⟨200, "", some (JVal.obj [("result", JVal.arr
        [JVal.obj [("sys_id", JVal.str "g1")],
          JVal.obj [("sys_id", JVal.str "g2")]])])⟩ "Policy_Admin_Triage" =
      Except.ok (JVal.str "g1") :=
  ⟨((resolver_spec ⟨403, "forbidden", none⟩ "INC0010001" JVal.null [] []).1
      (by decide)).1,
    ((resolver_spec ⟨200, "", some (JVal.obj [("result", JVal.arr [])])⟩
      "winston.dsouza" JVal.null [] []).2.1 (by decide) rfl).2.1,
    ((resolver_spec ⟨200, "", some (JVal.obj [("result", JVal.arr
        [JVal.obj [("sys_id", JVal.str "g1")],
          JVal.obj [("sys_id", JVal.str "g2")]])])⟩ "Policy_Admin_Triage"
      (JVal.str "g1") [] [JVal.obj [("sys_id", JVal.str "g2")]]).2.2
      (by decide) rfl).2.2⟩

/-- C4: update_incident normalizes the record identifier (lowercase then
strip) before use, and its PATCH payload is exactly work_notes with the
given notes and state "2", plus assignment_group exactly when the group
identifier argument is non-empty and assigned_to exactly when the user
identifier argument is non-empty, with no other fields. -/
theorem update_payload_spec (r : Response) (sys_id : String) (wn : String)
    (g : String) (u : String) :
    (update_incident r (JVal.str sys_id) wn (JVal.str g) (JVal.str u)).2 =
      [CallEvent.patchIncident
        (INSTANCE ++ "/api/now/table/incident/" ++
          str_strip (str_lower sys_id))
        ([("work_notes", JVal.str wn), ("state", JVal.str "2")]
          ++ (if g ≠ "" then [("assignment_group", JVal.str g)] else [])
          ++ (if u ≠ "" then [("assigned_to", JVal.str u)] else []))] := by
  by_cases hg : g = "" <;> by_cases hu : u = "" <;>
    simp [update_incident, py_lower_strip, update_payload, pyTruthy,
      hg, hu] <;>
    split_ifs <;> simp

/-- C6: the Record Updater maps a remote 404 on the PATCH to a 404
not-found naming the normalized identifier, and passes any other remote
status of at least 400 through with the upstream body verbatim. -/
theorem update_error_spec (r : Response) (sys_id : String) (wn : String)
    (g : JVal) (u : JVal) :
    (r.status_code = 404 →
      (update_incident r (JVal.str sys_id) wn g u).1 =
        Except.error (PyExc.httpException 404
          ("Incident sys_id=" ++ str_strip (str_lower sys_id) ++
            " not found in ServiceNow."))) ∧
    (r.status_code ≠ 404 → 400 ≤ r.status_code →
      (update_incident r (JVal.str sys_id) wn g u).1 =
        Except.error (PyExc.httpException r.status_code r.text)) := by
  constructor
  · intro h404
    simp [update_incident, py_lower_strip, h404]
  · intro hne h4
    simp [update_incident, py_lower_strip, hne, h4]

/-- Witness for update_error_spec: a 404 answer yields the not-found for
the normalized identifier, a 500 answer is passed through with its body. -/
theorem update_error_spec_witness :
    (update_incident ⟨404, "nf", none⟩ (JVal.str " ABC ") "n" JVal.null
        JVal.null).1 =
      Except.error (PyExc.httpException 404
        "Incident sys_id=abc not found in ServiceNow.") ∧
    (update_incident ⟨500, "boom", none⟩ (JVal.str "abc") "n" JVal.null
        JVal.null).1 =
      Except.error (PyExc.httpException 500 "boom") :=
  ⟨(update_error_spec ⟨404, "nf", none⟩ " ABC " "n" JVal.null JVal.null).1
      rfl,
    (update_error_spec ⟨500, "boom", none⟩ "abc" "n" JVal.null JVal.null).2
      (by decide) (by decide)⟩

/-- Discriminator for resolver outcomes that are unhandled Python
exceptions rather than HTTPExceptions. -/
def unhandled_exception : Except PyExc JVal → Bool
  | Except.error (PyExc.httpException _ _) => false
  | Except.error _ => true
  | Except.ok _ => false

/-- C10: the resolvers read the parsed body without any guard.  A 2xx
response whose body is not JSON makes the incident resolver raise the JSON
decode error, and a 2xx response whose first result record lacks a sys_id
key makes the user and group resolvers raise KeyError; none of these is an
HTTPException, so neither a not-found nor an error carrying the remote
status and body is produced. -/
theorem resolver_unguarded_access :
    get_sys_id_from_number ⟨200, "<html>error</html>", none⟩ "INC0010001" =
      Except.error PyExc.jsonDecodeError ∧
    unhandled_exception (get_sys_id_from_number
      ⟨200, "<html>error</html>", none⟩ "INC0010001") = true ∧
    get_user_sys_id ⟨200, "", some (JVal.obj [("result",
        JVal.arr [JVal.obj [("user_name", JVal.str "winston.dsouza")]])])⟩
        "winston.dsouza" =
      Except.error (PyExc.keyError "sys_id") ∧
    unhandled_exception (get_user_sys_id ⟨200, "", some (JVal.obj [("result",
        JVal.arr [JVal.obj [("user_name", JVal.str "winston.dsouza")]])])⟩
      "winston.dsouza") = true ∧
    get_group_sys_id ⟨200, "", some (JVal.obj [("result",
        JVal.arr [JVal.obj []])])⟩ "Policy_Admin_Triage" =
      Except.error (PyExc.keyError "sys_id") ∧
    unhandled_exception (get_group_sys_id ⟨200, "", some (JVal.obj [("result",
        JVal.arr [JVal.obj []])])⟩ "Policy_Admin_Triage") = true :=
  ⟨rfl, rfl, rfl, rfl, rfl, rfl⟩

lemma update_success (r : Response) (sid : String) (wn : String)
    (g u : JVal) (j : JVal)
    (h404 : r.status_code ≠ 404) (hlt : r.status_code < 400)
    (hb : r.body = some j) :
    update_incident r (JVal.str sid) wn g u =
      (Except.ok j,
        [CallEvent.patchIncident
          (INSTANCE ++ "/api/now/table/incident/" ++
            str_strip (str_lower sid))
          (update_payload wn g u)]) := by
  have hn4 : ¬ 400 ≤ r.status_code := Nat.not_le.mpr hlt
  simp [update_incident, py_lower_strip, h404, hn4, Response.json, hb]

/-- C8: on a fully successful request the notes echoed in the response and
the work_notes written by the PATCH are both the stripped summary with the
Auto-routing block appended exactly when the routing decision names an
assignee, and the summary unchanged otherwise. -/
theorem triage_notes_spec (env : Env) (p : IncidentPayload)
    (content : String) (incS : String) (g u j : JVal)
    (hpw : env.sn_password ≠ "")
    (hInc : get_sys_id_from_number env.incidentResp p.number =
      Except.ok (JVal.str incS))
    (hLlm : env.llmResult = Except.ok content)
    (hGrp : get_group_sys_id env.groupResp "Policy_Admin_Triage" =
      Except.ok g)
    (hUsr : get_user_sys_id env.userResp "winston.dsouza" = Except.ok u)
    (hU404 : env.updateResp.status_code ≠ 404)
    (hUlt : env.updateResp.status_code < 400)
    (hUbody : env.updateResp.body = some j) :
    (∃ res : TriageResult,
      (triage_incident env p).1 = Except.ok res ∧
      res.notes =
        (if (decide_routing p.short_description p.description).assignee_username
            ≠ "" then
          str_strip content ++ autoRoutingNote
            (decide_routing p.short_description p.description)
        else
          str_strip content)) ∧
    (∃ url payload,
      List.filter isPatch (triage_incident env p).2 =
        [CallEvent.patchIncident url payload] ∧
      List.lookup "work_notes" payload =
        some (JVal.str
          (if (decide_routing p.short_description p.description).assignee_username
              ≠ "" then
            str_strip content ++ autoRoutingNote
              (decide_routing p.short_description p.description)
          else
            str_strip content))) := by
  by_cases hA : (decide_routing p.short_description
      p.description).assignee_username = ""
  · rw [triage_final_unassigned env p (JVal.str incS) content g hpw hInc
        hLlm hGrp hA,
      update_success env.updateResp incS (str_strip content) g (JVal.str "")
        j hU404 hUlt hUbody]
    constructor
    · exact ⟨⟨"updated", p.number, JVal.str incS, "Policy_Admin_Triage", "",
        str_strip content⟩, by simp, by simp [hA]⟩
    · refine ⟨INSTANCE ++ "/api/now/table/incident/" ++
          str_strip (str_lower incS),
        update_payload (str_strip content) g (JVal.str ""), ?_, ?_⟩
      · simp [isPatch]
      · simp [update_payload, List.lookup, hA]
  · have hAe := assignee_eq_of_ne p.short_description p.description hA
    have hUsr2 : get_user_sys_id env.userResp
        (decide_routing p.short_description p.description).assignee_username =
        Except.ok u := by
      rw [hAe]
      exact hUsr
    rw [triage_final_assigned env p (JVal.str incS) content g u hpw hInc
        hLlm hGrp hA hUsr2,
      update_success env.updateResp incS
        (str_strip content ++ autoRoutingNote
          (decide_routing p.short_description p.description)) g u
        j hU404 hUlt hUbody]
    constructor
    · exact ⟨⟨"updated", p.number, JVal.str incS, "Policy_Admin_Triage",
        (decide_routing p.short_description p.description).assignee_username,
        str_strip content ++ autoRoutingNote
          (decide_routing p.short_description p.description)⟩,
        by simp, by simp [hA]⟩
    · refine ⟨INSTANCE ++ "/api/now/table/incident/" ++
          str_strip (str_lower incS),
        update_payload (str_strip content ++ autoRoutingNote
          (decide_routing p.short_description p.description)) g u, ?_, ?_⟩
      · simp [isPatch]
      · simp [update_payload, List.lookup, hA]

/-- Request of end-to-end scenario A: keyword "endorsement" present. -/
def pScenarioA : IncidentPayload := ⟨"INC0010001", "need endorsement change", ""⟩

/-- Oracles of end-to-end scenario A: resolvable incident, group and user,
successful summary and update. -/
def envScenarioA : Env :=
  ⟨"pw",
    ⟨200, "", some (JVal.obj [("result",
      JVal.arr [JVal.obj [("sys_id", JVal.str "abc")]])])⟩,
    Except.ok "SUMMARY",
    ⟨200, "", some (JVal.obj [("result",
      JVal.arr [JVal.obj [("sys_id", JVal.str "g1")]])])⟩,
    ⟨200, "", some (JVal.obj [("result",
      JVal.arr [JVal.obj [("sys_id", JVal.str "u1")]])])⟩,
    ⟨200, "", some (JVal.obj [])⟩⟩

/-- Witness for triage_notes_spec at scenario A. -/
theorem triage_notes_spec_witness :
    (∃ res : TriageResult,
      (triage_incident envScenarioA pScenarioA).1 = Except.ok res ∧
      res.notes =
        (if (decide_routing pScenarioA.short_description
            pScenarioA.description).assignee_username ≠ "" then
          str_strip "SUMMARY" ++ autoRoutingNote
            (decide_routing pScenarioA.short_description
              pScenarioA.description)
        else
          str_strip "SUMMARY")) ∧
    (∃ url payload,
      List.filter isPatch (triage_incident envScenarioA pScenarioA).2 =
        [CallEvent.patchIncident url payload] ∧
      List.lookup "work_notes" payload =
        some (JVal.str
          (if (decide_routing pScenarioA.short_description
              pScenarioA.description).assignee_username ≠ "" then
            str_strip "SUMMARY" ++ autoRoutingNote
              (decide_routing pScenarioA.short_description
                pScenarioA.description)
          else
            str_strip "SUMMARY"))) :=
  triage_notes_spec envScenarioA pScenarioA "SUMMARY" "abc" (JVal.str "g1")
    (JVal.str "u1") (JVal.obj []) (by decide) rfl rfl rfl rfl (by decide)
    (by decide) rfl

/-- Request with no routing keyword, so no assignee is named. -/
def pPrinter : IncidentPayload := ⟨"INC0010002", "printer issue", ""⟩

/-- Oracles where the group resolution succeeds but yields an empty string
identifier, which Python treats as falsy. -/
def envGroupEmpty : Env :=
  ⟨"pw",
    ⟨200, "", some (JVal.obj [("result",
      JVal.arr [JVal.obj [("sys_id", JVal.str "abc")]])])⟩,
    Except.ok "summary",
    ⟨200, "", some (JVal.obj [("result",
      JVal.arr [JVal.obj [("sys_id", JVal.str "")]])])⟩,
    ⟨200, "", none⟩,
    ⟨200, "", some (JVal.obj [])⟩⟩

/-- Counterexample to C9 as stated: although the group resolution call is
made and succeeds, its result is the empty string, the update is still
performed, and its payload omits assignment_group — the group-omitted
branch of the updater is reachable from the endpoint. -/
theorem group_assignment_cex :
    (triage_incident envGroupEmpty pPrinter).2 =
      [CallEvent.getIncident "INC0010002", CallEvent.llmCall,
        CallEvent.getGroup "Policy_Admin_Triage",
        CallEvent.patchIncident
          "https://dev195416.service-now.com/api/now/table/incident/abc"
          [("work_notes", JVal.str "summary"), ("state", JVal.str "2")]] ∧
    List.lookup "assignment_group"
      [("work_notes", JVal.str "summary"), ("state", JVal.str "2")] = none :=
  ⟨rfl, rfl⟩

/-- Amended C9: every request that reaches the routing step performs the
group resolution call (the routing group name is the non-empty constant),
and whenever the resolved group identifier is truthy (in particular a
non-empty string), every PATCH that is performed carries assignment_group
with that identifier. -/
theorem group_assignment_spec (env : Env) (p : IncidentPayload) (g : JVal)
    (hGrp : get_group_sys_id env.groupResp "Policy_Admin_Triage" =
      Except.ok g)
    (hgt : pyTruthy g = true) :
    (∀ url payload,
      CallEvent.patchIncident url payload ∈ (triage_incident env p).2 →
      List.lookup "assignment_group" payload = some g) ∧
    (env.sn_password ≠ "" →
      exceptOk (get_sys_id_from_number env.incidentResp p.number) = true →
      exceptOk (triage_report env.llmResult p.number p.short_description
        p.description) = true →
      CallEvent.getGroup "Policy_Admin_Triage" ∈
        (triage_incident env p).2) := by
  constructor
  · intro url payload hmem
    by_cases hpw : env.sn_password = ""
    · rw [triage_step0 env p hpw] at hmem
      simp at hmem
    · rcases hInc : get_sys_id_from_number env.incidentResp p.number
          with e | v
      · rw [triage_step1 env p e hpw hInc] at hmem
        simp at hmem
      · rcases hLlm : env.llmResult with e | content
        · rw [triage_step2 env p v e hpw hInc hLlm] at hmem
          simp at hmem
        · by_cases hA : (decide_routing p.short_description
              p.description).assignee_username = ""
          · rw [triage_final_unassigned env p v content g hpw hInc hLlm
              hGrp hA] at hmem
            rcases update_calls_cases env.updateResp v (str_strip content)
                g (JVal.str "") with hc | ⟨url2, hc⟩
            · rw [hc] at hmem
              simp at hmem
            · rw [hc] at hmem
              simp at hmem
              rw [hmem.2]
              simp [update_payload, List.lookup, hgt]
          · rcases hUsr : get_user_sys_id env.userResp
                (decide_routing p.short_description
                  p.description).assignee_username with e | u
            · rw [triage_step4 env p v content g e hpw hInc hLlm hGrp hA
                hUsr] at hmem
              simp at hmem
            · rw [triage_final_assigned env p v content g u hpw hInc hLlm
                hGrp hA hUsr] at hmem
              rcases update_calls_cases env.updateResp v
                  (str_strip content ++ autoRoutingNote
                    (decide_routing p.short_description p.description))
                  g u with hc | ⟨url2, hc⟩
              · rw [hc] at hmem
                simp at hmem
              · rw [hc] at hmem
                simp at hmem
                rw [hmem.2]
                simp [update_payload, List.lookup, hgt]
  · intro hpw hIncOk hLlmOk
    rcases hInc : get_sys_id_from_number env.incidentResp p.number
        with e | v
    · rw [hInc] at hIncOk
      simp [exceptOk] at hIncOk
    · rcases hLlm : env.llmResult with e | content
      · rw [hLlm] at hLlmOk
        simp [triage_report, exceptOk] at hLlmOk
      · by_cases hA : (decide_routing p.short_description
            p.description).assignee_username = ""
        · rw [triage_final_unassigned env p v content g hpw hInc hLlm
            hGrp hA]
          simp
        · rcases hUsr : get_user_sys_id env.userResp
              (decide_routing p.short_description
                p.description).assignee_username with e | u
          · rw [triage_step4 env p v content g e hpw hInc hLlm hGrp hA hUsr]
            simp
          · rw [triage_final_assigned env p v content g u hpw hInc hLlm
              hGrp hA hUsr]
            simp

/-- Oracles where the group resolution yields the truthy identifier g1. -/
def envGroupFull : Env :=
  ⟨"pw",
    ⟨200, "", some (JVal.obj [("result",
      JVal.arr [JVal.obj [("sys_id", JVal.str "abc")]])])⟩,
    Except.ok "summary",
    ⟨200, "", some (JVal.obj [("result",
      JVal.arr [JVal.obj [("sys_id", JVal.str "g1")]])])⟩,
    ⟨200, "", none⟩,
    ⟨200, "", some (JVal.obj [])⟩⟩

/-- Witness for group_assignment_spec: the routing step is reached and the
group resolution call appears in the trace. -/
theorem group_assignment_spec_witness :
    CallEvent.getGroup "Policy_Admin_Triage" ∈
      (triage_incident envGroupFull pPrinter).2 :=
  (group_assignment_spec envGroupFull pPrinter (JVal.str "g1") rfl rfl).2
    (by decide) rfl rfl
